import Mathlib

/-!
Verification of the ObjectEncoder serializer (src/json/object_encoder_test.py).

The encoder walks an arbitrary Python value through an ordered dispatch chain:
a suppression check against skip_types, a sequence of primitive coercion
branches, and a structural reflection fallback over the __dict__ namespace.
Python objects are modelled as records of exactly the observations the
dispatch code makes on a value; object graphs (which may be cyclic) are
modelled with an explicit heap of such records indexed by references, since
a cyclic graph cannot be built as an inductive value.
-/

namespace ObjEnc

/-- A reference into the object heap (Python object identity). -/
abbrev Ref := Nat

/-- Model of one Python object, as observed by ObjectEncoder.default:
its method resolution order (first element is the runtime type name),
callability, the isoformat protocol, the results of str and of the
numeric coercions, and its class-level and instance-level attribute
namespaces (association lists from attribute name to heap reference). -/
structure PyObj where
  mro : List String
  isCallable : Bool
  hasIsoformat : Bool
  isNullLike : Bool
  isoformatResult : String
  strForm : String
  intVal : Int
  floatVal : Rat
  arrayElems : List Ref
  hasDict : Bool
  classAttrs : List (String × Ref)
  instAttrs : List (String × Ref)
  deriving DecidableEq

/-- The object heap: reference i denotes the i-th record. -/
abbrev Heap := List PyObj

/-- Python callable(value) for a heap reference. -/
def refCallable (h : Heap) (r : Ref) : Bool :=
  match h[r]? with
  | Option.some o => o.isCallable
  | Option.none => false

/-- isinstance(obj, tuple-of-types): some listed type occurs in the mro
of the runtime type of obj. -/
def isinstanceOf (o : PyObj) (ts : List String) : Bool :=
  ts.any (fun t => decide (t ∈ o.mro))

/-- The class-level ObjectEncoder.skip_types baseline tuple. -/
def baselineSkipTypes : List String :=
  ["classmethod", "staticmethod", "property",
   "types.BuiltinFunctionType", "types.BuiltinMethodType",
   "pd.Series", "pd.DataFrame", "pd.Index",
   "functools.partial",
   "logging.Logger", "logging.RootLogger"]

/-- The numpy integer variants listed in the integer coercion branch. -/
def npIntTypes : List String :=
  ["np.int_", "np.intc", "np.intp", "np.int8", "np.int16", "np.int32",
   "np.int64", "np.uint8", "np.uint16", "np.uint32", "np.uint64"]

/-- The numpy floating variants listed in the float coercion branch. -/
def npFloatTypes : List String :=
  ["np.float_", "np.float16", "np.float32", "np.float64"]

/-- The pymongo types tested by the local helper _is_mongo_object. -/
def mongoTypes : List String :=
  ["pymongo.mongo_client.MongoClient", "pymongo.database.Database",
   "pymongo.collection.Collection"]

/-- The skip_types computed by ObjectEncoder.__init__ from the class
baseline and the caller-supplied extension list:
tuple(set(list(self.skip_types) + skip_types)). -/
def mkSkipTypes (ext : List String) : List String :=
  (baselineSkipTypes ++ ext).dedup

/-- key.startswith two underscores and key.endswith two underscores,
stated over the character list of the key. -/
def isDunder (key : String) : Bool :=
  key.data.take 2 == ['_', '_'] && key.data.reverse.take 2 == ['_', '_']

/-- getattr(obj, key): instance namespace first, then class namespace. -/
def pyGetattr (o : PyObj) (key : String) : Option Ref :=
  match o.instAttrs.find? (fun p => p.1 == key) with
  | Option.some p => Option.some p.2
  | Option.none =>
    match o.classAttrs.find? (fun p => p.1 == key) with
    | Option.some p => Option.some p.2
    | Option.none => Option.none

/-- The value a dict update gives an existing key of the base dict:
the updating value when the key occurs in upd, the original otherwise. -/
def updValue (upd : List (String × Ref)) (p : String × Ref) : String × Ref :=
  match upd.find? (fun q => q.1 == p.1) with
  | Option.some q => (p.1, q.2)
  | Option.none => p

/-- dict(base) followed by .update(upd): keys of base keep their position
with values overridden by upd, keys only in upd are appended in order. -/
def dictUpdate (base upd : List (String × Ref)) : List (String × Ref) :=
  base.map (updValue upd) ++ upd.filter (fun q => !(base.any (fun p => p.1 == q.1)))

/-- One iteration of the reflection loop body for a candidate key:
resolve the attribute with getattr, drop dunder keys and callable
values, keep the pair otherwise. -/
def reflectEntry (h : Heap) (o : PyObj) (key : String) : Option (String × Ref) :=
  match pyGetattr o key with
  | Option.none => Option.none
  | Option.some r =>
    if isDunder key || refCallable h r then Option.none else Option.some (key, r)

/-- The structural reflection fallback of ObjectEncoder.default: iterate
over the keys of dict(obj.__class__.__dict__) updated with obj.__dict__,
resolving each with getattr and filtering dunder keys and callables. -/
def reflect (h : Heap) (o : PyObj) : List (String × Ref) :=
  ((dictUpdate o.classAttrs o.instAttrs).map Prod.fst).filterMap (reflectEntry h o)

/-- The runtime type name of an object (head of its mro). -/
def typeName (o : PyObj) : String :=
  o.mro.headD ("object")

/-- The value ObjectEncoder.default returns to the JSON writer: null, a
string, a coerced number, a list of further references, or a mapping from
names to further references. List and dict results are re-entered by the
writer one reference at a time. -/
inductive DOut where
  | none
  | str (s : String)
  | int (n : Int)
  | float (q : Rat)
  | list (rs : List Ref)
  | dict (m : List (String × Ref))
  deriving DecidableEq

/-- ObjectEncoder.default, branch for branch in source order: skip_types
suppression, type and set literals, the isoformat protocol with the
pandas null test and the pymongo carve-out, numpy integer, float and
ndarray coercions, builtin callables, SimpleNamespace, pathlib paths,
timezone descriptors, the structural reflection fallback, and finally
the inherited default, which signals that the type is unsupported. -/
def encDefault (h : Heap) (skips : List String) (r : Ref) : Except String DOut :=
  match h[r]? with
  | Option.none => Except.error ("invalid reference")
  | Option.some o =>
    if isinstanceOf o skips then Except.ok DOut.none
    else if isinstanceOf o ["type", "set", "frozenset"] then
      Except.ok (DOut.str o.strForm)
    else if o.hasIsoformat then
      (if o.isNullLike then Except.ok DOut.none
       else if !(isinstanceOf o mongoTypes) then Except.ok (DOut.str o.isoformatResult)
       else Except.ok (DOut.str o.strForm))
    else if isinstanceOf o npIntTypes then Except.ok (DOut.int o.intVal)
    else if isinstanceOf o npFloatTypes then Except.ok (DOut.float o.floatVal)
    else if isinstanceOf o ["np.ndarray"] then Except.ok (DOut.list o.arrayElems)
    else if isinstanceOf o ["types.BuiltinFunctionType", "types.BuiltinMethodType"] then
      Except.ok (DOut.str o.strForm)
    else if isinstanceOf o ["types.SimpleNamespace"] then
      Except.ok (DOut.dict o.instAttrs)
    else if isinstanceOf o ["pathlib.Path"] then Except.ok (DOut.str o.strForm)
    else if isinstanceOf o ["datetime.timezone"] then Except.ok (DOut.str o.strForm)
    else if o.hasDict then Except.ok (DOut.dict (reflect h o))
    else Except.error ("Object of type " ++ typeName o ++ " is not JSON serializable")

/-- The ways a full serialization can fail: the circular reference error
the inherited writer raises when its visited marker set detects re-entry
of an object currently being serialized, an error propagated from
default, and a recursion budget marker used only to express depth bounds
of the model (shown unreachable for a sufficient budget). -/
inductive WErr where
  | circular
  | unsupported (msg : String)
  | fuelOut
  deriving DecidableEq

/-- A finished JSON value as assembled by the surrounding writer. -/
inductive JValue where
  | null
  | str (s : String)
  | int (n : Int)
  | float (q : Rat)
  | arr (vs : List JValue)
  | obj (m : List (String × JValue))

mutual

/-- The recursion of the inherited JSON writer into one value of unknown
shape, with the visited marker discipline of json.JSONEncoder under its
default check_circular behavior: before calling default on an object the
writer records its identity in markers and raises the circular reference
error if the identity is already recorded; the record is scoped to the
expansion of that object, which the functional markers argument captures.
The budget argument only bounds the modelled recursion depth. -/
def writeRefF (h : Heap) (skips : List String) : Nat → List Ref → Ref → Except WErr JValue
  | 0, _, _ => Except.error WErr.fuelOut
  | fuel + 1, markers, r =>
    if r ∈ markers then Except.error WErr.circular
    else
      match encDefault h skips r with
      | Except.error e => Except.error (WErr.unsupported e)
      | Except.ok DOut.none => Except.ok JValue.null
      | Except.ok (DOut.str s) => Except.ok (JValue.str s)
      | Except.ok (DOut.int n) => Except.ok (JValue.int n)
      | Except.ok (DOut.float q) => Except.ok (JValue.float q)
      | Except.ok (DOut.list rs) =>
        (writeListF h skips fuel (r :: markers) rs).map JValue.arr
      | Except.ok (DOut.dict m) =>
        (writeDictF h skips fuel (r :: markers) m).map JValue.obj
termination_by fuel markers r => (fuel, 0)

/-- The writer walking the elements of an array expansion in order,
stopping at the first error. -/
def writeListF (h : Heap) (skips : List String) : Nat → List Ref → List Ref → Except WErr (List JValue)
  | _, _, [] => Except.ok []
  | fuel, markers, r :: rs =>
    match writeRefF h skips fuel markers r with
    | Except.error e => Except.error e
    | Except.ok v =>
      match writeListF h skips fuel markers rs with
      | Except.error e => Except.error e
      | Except.ok vs => Except.ok (v :: vs)
termination_by fuel markers rs => (fuel, rs.length + 1)

/-- The writer walking the entries of a mapping expansion in order,
stopping at the first error. -/
def writeDictF (h : Heap) (skips : List String) : Nat → List Ref → List (String × Ref) → Except WErr (List (String × JValue))
  | _, _, [] => Except.ok []
  | fuel, markers, p :: ps =>
    match writeRefF h skips fuel markers p.2 with
    | Except.error e => Except.error e
    | Except.ok v =>
      match writeDictF h skips fuel markers ps with
      | Except.error e => Except.error e
      | Except.ok vs => Except.ok ((p.1, v) :: vs)
termination_by fuel markers ps => (fuel, ps.length + 1)

end

/-- The number of distinct valid heap references currently recorded in the
marker set; it can only grow along a path of the writer recursion and is
bounded by the heap size. -/
def markedCount (h : Heap) (markers : List Ref) : Nat :=
  ((markers.filter (fun r => decide (r < h.length))).dedup).length

/-- The class-level and per-instance encoder configuration state:
the class attribute skip_types and the skip_types of each constructed
instance, in construction order. -/
structure EncoderWorld where
  classBaseline : List String
  instances : List (List String)
  deriving DecidableEq

/-- ObjectEncoder.__init__: read the class baseline, union it with the
caller extensions, store the result on the new instance only. -/
def encoderInit (w : EncoderWorld) (ext : List String) : EncoderWorld :=
  { w with instances := w.instances ++ [(w.classBaseline ++ ext).dedup] }

/-- One serialize call through instance i: default reads that instance
skip_types and the heap, and returns a result with the world unchanged
(the method body assigns to nothing). -/
def serializeCall (w : EncoderWorld) (i : Nat) (h : Heap) (r : Ref) :
    Except String DOut × EncoderWorld :=
  (encDefault h (w.instances.getD i []) r, w)

/-- A plain object with every observation defaulted. -/
def plainObj (mro : List String) : PyObj :=
  { mro := mro, isCallable := false, hasIsoformat := false, isNullLike := false,
    isoformatResult := "", strForm := "", intVal := 0, floatVal := 0,
    arrayElems := [], hasDict := true, classAttrs := [], instAttrs := [] }

/-- A self referential object: instance attribute self_ref points back to
the object itself (heap reference 0). -/
def cycObj : PyObj :=
  { plainObj ["A", "object"] with instAttrs := [("self_ref", 0)] }

/-- The one object heap holding the cyclic graph. -/
def cycHeap : Heap := [cycObj]

/-- A DataFrame shaped object with internal state, for the suppression
witness. -/
def dfObj : PyObj :=
  { plainObj ["pd.DataFrame", "pd.NDFrame", "object"] with instAttrs := [("data", 0)] }

/-- Heap for the suppression witness. -/
def dfHeap : Heap := [dfObj]

/-- A class object: its runtime type is type, it is callable and has a
namespace, and str of it is its class display form. -/
def fooClassObj : PyObj :=
  { plainObj ["type", "object"] with strForm := "<class Foo>", isCallable := true }

/-- Heap holding the class object. -/
def fooHeap : Heap := [fooClassObj]

/-- The builtin function len: runtime type types.BuiltinFunctionType,
callable, no instance namespace. -/
def lenObj : PyObj :=
  { plainObj ["types.BuiltinFunctionType", "object"] with
    strForm := "<built-in function len>", isCallable := true, hasDict := false }

/-- Heap holding the builtin function. -/
def lenHeap : Heap := [lenObj]

/-- A complex number: matches no dispatch branch and exposes no namespace. -/
def cplxObj : PyObj :=
  { plainObj ["complex", "object"] with strForm := "(1+2j)", hasDict := false }

/-- Heap holding the complex number. -/
def cplxHeap : Heap := [cplxObj]

/-- Some listed type that occurs in the mro makes isinstance true. -/
theorem isinstanceOf_of_mem (o : PyObj) (ts : List String) (t : String)
    (h1 : t ∈ ts) (h2 : t ∈ o.mro) : isinstanceOf o ts = true := by
  simp only [isinstanceOf, List.any_eq_true, decide_eq_true_eq]
  exact ⟨t, h1, h2⟩

/-- The marker count never exceeds the heap size. -/
theorem markedCount_le (h : Heap) (markers : List Ref) :
    markedCount h markers ≤ h.length := by
  unfold markedCount
  set d := (markers.filter (fun r => decide (r < h.length))).dedup with hd
  have hnd : d.Nodup := List.nodup_dedup _
  have hsub : d.toFinset ⊆ Finset.range h.length := by
    intro x hx
    rw [List.mem_toFinset] at hx
    rw [hd, List.mem_dedup, List.mem_filter] at hx
    rw [Finset.mem_range]
    exact of_decide_eq_true hx.2
  have hcard := Finset.card_le_card hsub
  rw [List.toFinset_card_of_nodup hnd, Finset.card_range] at hcard
  exact hcard

/-- Recording a fresh valid reference grows the marker count by one. -/
theorem markedCount_cons (h : Heap) (markers : List Ref) (r : Ref)
    (hv : r < h.length) (hnm : r ∉ markers) :
    markedCount h (r :: markers) = markedCount h markers + 1 := by
  unfold markedCount
  rw [List.filter_cons_of_pos (by simpa using hv)]
  rw [List.dedup_cons_of_not_mem (by simp [List.mem_filter, hnm])]
  rfl

/-- A successful default call implies the reference is a valid heap index. -/
theorem encDefault_ok_lt (h : Heap) (skips : List String) (r : Ref) (out : DOut)
    (he : encDefault h skips r = Except.ok out) : r < h.length := by
  by_contra hlt
  have hnone : h[r]? = Option.none := List.getElem?_eq_none (Nat.le_of_not_lt hlt)
  simp [encDefault, hnone] at he

/-- Mapping over a result preserves its error. -/
theorem exceptMap_eq_error {α β : Type} (f : α → β) (x : Except WErr α) (w : WErr) :
    x.map f = Except.error w ↔ x = Except.error w := by
  cases x <;> simp [Except.map]

/-- If no single reference can exhaust the budget under the marker bound,
neither can an array expansion walked at the same budget. -/
theorem writeListF_ne_fuelOut_of (h : Heap) (skips : List String) (fuel : Nat)
    (hres : ∀ (markers : List Ref) (r : Ref),
      h.length + 1 ≤ fuel + markedCount h markers →
      writeRefF h skips fuel markers r ≠ Except.error WErr.fuelOut)
    (markers : List Ref) (rs : List Ref)
    (hle : h.length + 1 ≤ fuel + markedCount h markers) :
    writeListF h skips fuel markers rs ≠ Except.error WErr.fuelOut := by
  induction rs with
  | nil => simp [writeListF]
  | cons r rs ih =>
    intro hcontra
    rw [writeListF] at hcontra
    cases hw : writeRefF h skips fuel markers r with
    | error e =>
      rw [hw] at hcontra
      simp at hcontra
      exact hres markers r hle (by rw [hw, hcontra])
    | ok v =>
      rw [hw] at hcontra
      cases hl : writeListF h skips fuel markers rs with
      | error e =>
        rw [hl] at hcontra
        simp at hcontra
        exact ih (by rw [hl, hcontra])
      | ok vs =>
        rw [hl] at hcontra
        simp at hcontra

/-- If no single reference can exhaust the budget under the marker bound,
neither can a mapping expansion walked at the same budget. -/
theorem writeDictF_ne_fuelOut_of (h : Heap) (skips : List String) (fuel : Nat)
    (hres : ∀ (markers : List Ref) (r : Ref),
      h.length + 1 ≤ fuel + markedCount h markers →
      writeRefF h skips fuel markers r ≠ Except.error WErr.fuelOut)
    (markers : List Ref) (ps : List (String × Ref))
    (hle : h.length + 1 ≤ fuel + markedCount h markers) :
    writeDictF h skips fuel markers ps ≠ Except.error WErr.fuelOut := by
  induction ps with
  | nil => simp [writeDictF]
  | cons p ps ih =>
    intro hcontra
    rw [writeDictF] at hcontra
    cases hw : writeRefF h skips fuel markers p.2 with
    | error e =>
      rw [hw] at hcontra
      simp at hcontra
      exact hres markers p.2 hle (by rw [hw, hcontra])
    | ok v =>
      rw [hw] at hcontra
      cases hl : writeDictF h skips fuel markers ps with
      | error e =>
        rw [hl] at hcontra
        simp at hcontra
        exact ih (by rw [hl, hcontra])
      | ok vs =>
        rw [hl] at hcontra
        simp at hcontra

/-- A recursion budget of heap size plus one is never exhausted: every
descent records a fresh valid reference in the markers, so the depth of
the writer recursion is bounded by the number of heap objects. -/
theorem writeRefF_ne_fuelOut (h : Heap) (skips : List String) :
    ∀ (fuel : Nat) (markers : List Ref) (r : Ref),
      h.length + 1 ≤ fuel + markedCount h markers →
      writeRefF h skips fuel markers r ≠ Except.error WErr.fuelOut := by
  intro fuel
  induction fuel with
  | zero =>
    intro markers r hle
    have := markedCount_le h markers
    omega
  | succ fuel ih =>
    intro markers r hle
    rw [writeRefF]
    by_cases hm : r ∈ markers
    · simp [hm]
    · simp only [hm, if_false]
      cases he : encDefault h skips r with
      | error e => simp
      | ok out =>
        have hv : r < h.length := encDefault_ok_lt h skips r out he
        have hcnt : markedCount h (r :: markers) = markedCount h markers + 1 :=
          markedCount_cons h markers r hv hm
        have hle2 : h.length + 1 ≤ fuel + markedCount h (r :: markers) := by omega
        cases out with
        | none => simp
        | str s => simp
        | int n => simp
        | float q => simp
        | list rs =>
          intro hcontra
          rw [exceptMap_eq_error] at hcontra
          exact writeListF_ne_fuelOut_of h skips fuel ih (r :: markers) rs hle2 hcontra
        | dict m =>
          intro hcontra
          rw [exceptMap_eq_error] at hcontra
          exact writeDictF_ne_fuelOut_of h skips fuel ih (r :: markers) m hle2 hcontra

/-- Claim C1: the surrounding writer inherited from the standard encoder
keeps a visited marker set (its default check_circular behavior) and
raises the circular reference error when serialization re-enters an
object currently being serialized; on the self referential object the
entry point raises that error, and a budget of heap size plus one is
never exhausted, so serialization of a cyclic graph terminates in the
error rather than hanging or overflowing the call stack. -/
theorem cyclic_reference_raises_circular_error :
    (∀ (h : Heap) (skips : List String) (fuel : Nat) (markers : List Ref) (r : Ref),
        r ∈ markers →
        writeRefF h skips (fuel + 1) markers r = Except.error WErr.circular)
    ∧ writeRefF cycHeap baselineSkipTypes (cycHeap.length + 1) [] 0
        = Except.error WErr.circular
    ∧ (∀ (h : Heap) (skips : List String) (fuel : Nat) (markers : List Ref) (r : Ref),
        h.length + 1 ≤ fuel + markedCount h markers →
        writeRefF h skips fuel markers r ≠ Except.error WErr.fuelOut) := by
  refine ⟨?_, ?_, fun h skips => writeRefF_ne_fuelOut h skips⟩
  · intro h skips fuel markers r hm
    rw [writeRefF]
    simp [hm]
  · have h0 : encDefault cycHeap baselineSkipTypes 0
        = Except.ok (DOut.dict [("self_ref", 0)]) := rfl
    have h1 : writeRefF cycHeap baselineSkipTypes 1 [0] 0
        = Except.error WErr.circular := by
      rw [writeRefF]
      simp
    show writeRefF cycHeap baselineSkipTypes 2 [] 0 = Except.error WErr.circular
    rw [writeRefF]
    simp [h0, h1, writeDictF, Except.map]

/-- Witness for C1: re-entry of the marked reference raises the circular
error, and the canonical budget is not exhausted on the cyclic heap. -/
theorem cyclic_reference_raises_circular_error_witness :
    writeRefF cycHeap baselineSkipTypes 1 [0] 0 = Except.error WErr.circular
    ∧ writeRefF cycHeap baselineSkipTypes 2 [] 0 ≠ Except.error WErr.fuelOut :=
  ⟨cyclic_reference_raises_circular_error.1 cycHeap baselineSkipTypes 0 [0] 0 (by decide),
   cyclic_reference_raises_circular_error.2.2 cycHeap baselineSkipTypes 2 [] 0 (by decide)⟩

/-- Claim C2: a value whose runtime type lies in the suppression set of an
encoder built from the baseline and caller extensions serializes to null,
whatever its other observations are; the suppression branch is the first
test and short circuits the rest of the chain. -/
theorem suppressed_type_yields_null (h : Heap) (ext : List String) (r : Ref)
    (o : PyObj) (t : String) (rest : List String)
    (hget : h[r]? = Option.some o) (hmro : o.mro = t :: rest)
    (ht : t ∈ baselineSkipTypes ∨ t ∈ ext) :
    encDefault h (mkSkipTypes ext) r = Except.ok DOut.none := by
  have hin : isinstanceOf o (mkSkipTypes ext) = true := by
    refine isinstanceOf_of_mem o _ t ?_ ?_
    · simp only [mkSkipTypes, List.mem_dedup, List.mem_append]
      exact ht
    · rw [hmro]
      exact List.mem_cons_self t rest
  simp [encDefault, hget, hin]

/-- Witness for C2 at a DataFrame shaped object with internal state. -/
theorem suppressed_type_yields_null_witness :
    encDefault dfHeap (mkSkipTypes []) 0 = Except.ok DOut.none :=
  suppressed_type_yields_null dfHeap [] 0 dfObj ("pd.DataFrame") ["pd.NDFrame", "object"]
    rfl rfl (Or.inl (by decide))

/-- Counterexample to claim C3: a class object is not matched by the
baseline suppression filter, and serializes to its string representation
rather than to null. -/
theorem class_object_not_suppressed_cex :
    isinstanceOf fooClassObj baselineSkipTypes = false
    ∧ encDefault fooHeap baselineSkipTypes 0 = Except.ok (DOut.str ("<class Foo>"))
    ∧ encDefault fooHeap baselineSkipTypes 0 ≠ Except.ok DOut.none := by
  refine ⟨by decide, rfl, ?_⟩
  intro hcontra
  have h1 : encDefault fooHeap baselineSkipTypes 0
      = Except.ok (DOut.str ("<class Foo>")) := rfl
  rw [h1] at hcontra
  simp at hcontra

/-- Claim C3 amended: a class object (runtime type is type) does not match
the baseline suppression filter; it is handled by the type literal branch
and serializes to its string representation. -/
theorem class_object_str_via_type_rule (h : Heap) (r : Ref) (o : PyObj)
    (hget : h[r]? = Option.some o) (hmro : o.mro = ["type", "object"]) :
    isinstanceOf o baselineSkipTypes = false
    ∧ encDefault h baselineSkipTypes r = Except.ok (DOut.str o.strForm) := by
  have hni : isinstanceOf o baselineSkipTypes = false := by
    simp only [isinstanceOf, hmro]
    decide
  have hti : isinstanceOf o ["type", "set", "frozenset"] = true := by
    simp only [isinstanceOf, hmro]
    decide
  exact ⟨hni, by simp [encDefault, hget, hni, hti]⟩

/-- Witness for the amended C3 at the concrete class object. -/
theorem class_object_str_via_type_rule_witness :
    isinstanceOf fooClassObj baselineSkipTypes = false
    ∧ encDefault fooHeap baselineSkipTypes 0 = Except.ok (DOut.str ("<class Foo>")) :=
  class_object_str_via_type_rule fooHeap 0 fooClassObj rfl rfl

/-- Counterexample to claim C4: the builtin function len serializes to
null through the suppression branch, not to its string representation. -/
theorem builtin_function_yields_null_cex :
    encDefault lenHeap baselineSkipTypes 0 = Except.ok DOut.none
    ∧ encDefault lenHeap baselineSkipTypes 0
        ≠ Except.ok (DOut.str ("<built-in function len>")) := by
  refine ⟨rfl, ?_⟩
  intro hcontra
  have h1 : encDefault lenHeap baselineSkipTypes 0 = Except.ok DOut.none := rfl
  rw [h1] at hcontra
  simp at hcontra

/-- Claim C4 amended: builtin function and method objects are matched by
the suppression set of every constructed encoder, whose baseline always
contains their two types, so they serialize to null; the later string
representation branch for them is unreachable. -/
theorem builtin_function_suppressed_first (h : Heap) (ext : List String) (r : Ref)
    (o : PyObj) (hget : h[r]? = Option.some o)
    (hb : "types.BuiltinFunctionType" ∈ o.mro ∨ "types.BuiltinMethodType" ∈ o.mro) :
    encDefault h (mkSkipTypes ext) r = Except.ok DOut.none := by
  have hin : isinstanceOf o (mkSkipTypes ext) = true := by
    rcases hb with hb | hb
    · exact isinstanceOf_of_mem o _ ("types.BuiltinFunctionType")
        (by simp [mkSkipTypes, baselineSkipTypes]) hb
    · exact isinstanceOf_of_mem o _ ("types.BuiltinMethodType")
        (by simp [mkSkipTypes, baselineSkipTypes]) hb
  simp [encDefault, hget, hin]

/-- Witness for the amended C4 at the builtin function len, under an
encoder constructed with a caller extension. -/
theorem builtin_function_suppressed_first_witness :
    encDefault lenHeap (mkSkipTypes ["MyType"]) 0 = Except.ok DOut.none :=
  builtin_function_suppressed_first lenHeap ["MyType"] 0 lenObj rfl
    (Or.inl (by decide))

/-- Claim C5: a value that matches neither the suppression filter, nor any
primitive coercion branch, nor exposes an attribute namespace, falls
through to the inherited handler, which raises the unsupported type error
naming the runtime type; in particular no such value is coerced to null. -/
theorem unmatched_value_raises_unsupported (h : Heap) (skips : List String)
    (r : Ref) (o : PyObj) (hget : h[r]? = Option.some o)
    (h1 : isinstanceOf o skips = false)
    (h2 : isinstanceOf o ["type", "set", "frozenset"] = false)
    (h3 : o.hasIsoformat = false)
    (h4 : isinstanceOf o npIntTypes = false)
    (h5 : isinstanceOf o npFloatTypes = false)
    (h6 : isinstanceOf o ["np.ndarray"] = false)
    (h7 : isinstanceOf o ["types.BuiltinFunctionType", "types.BuiltinMethodType"] = false)
    (h8 : isinstanceOf o ["types.SimpleNamespace"] = false)
    (h9 : isinstanceOf o ["pathlib.Path"] = false)
    (h10 : isinstanceOf o ["datetime.timezone"] = false)
    (h11 : o.hasDict = false) :
    encDefault h skips r
      = Except.error ("Object of type " ++ typeName o ++ " is not JSON serializable")
    ∧ ∀ d : DOut, encDefault h skips r ≠ Except.ok d := by
  have hmain : encDefault h skips r
      = Except.error ("Object of type " ++ typeName o ++ " is not JSON serializable") := by
    simp [encDefault, hget, h1, h2, h3, h4, h5, h6, h7, h8, h9, h10, h11]
  refine ⟨hmain, ?_⟩
  intro d hcontra
  rw [hmain] at hcontra
  simp at hcontra

/-- Witness for C5 at a complex number. -/
theorem unmatched_value_raises_unsupported_witness :
    encDefault cplxHeap baselineSkipTypes 0
      = Except.error ("Object of type " ++ typeName cplxObj ++ " is not JSON serializable")
    ∧ ∀ d : DOut, encDefault cplxHeap baselineSkipTypes 0 ≠ Except.ok d :=
  unmatched_value_raises_unsupported cplxHeap baselineSkipTypes 0 cplxObj
    rfl (by decide) (by decide) rfl (by decide) (by decide) (by decide) (by decide)
    (by decide) (by decide) (by decide) rfl

/-- An object whose class binds f to a plain value and whose instance
rebinds f to a bound callable. -/
def shadowObj : PyObj :=
  { plainObj ["X", "object"] with classAttrs := [("f", 1)], instAttrs := [("f", 2)] }

/-- A plain non callable value. -/
def plainOne : PyObj :=
  { plainObj ["int", "object"] with intVal := 1, hasDict := false }

/-- A bound callable value. -/
def boundFn : PyObj :=
  { plainObj ["method", "object"] with isCallable := true, hasDict := false }

/-- Heap for the shadowing counterexample. -/
def shadowHeap : Heap := [shadowObj, plainOne, boundFn]

/-- An object whose class binds x and whose instance rebinds x to a
different plain value. -/
def overObj : PyObj :=
  { plainObj ["Y", "object"] with classAttrs := [("x", 1)], instAttrs := [("x", 2)] }

/-- The class level value of x. -/
def zeroVal : PyObj :=
  { plainObj ["int", "object"] with intVal := 0, hasDict := false }

/-- The instance level value of x. -/
def fiveVal : PyObj :=
  { plainObj ["int", "object"] with intVal := 5, hasDict := false }

/-- Heap for the instance override witness. -/
def overHeap : Heap := [overObj, zeroVal, fiveVal]

/-- The string Bob. -/
def bobStr : PyObj :=
  { plainObj ["str", "object"] with strForm := "Bob", hasDict := false }

/-- A callable greet attribute value. -/
def greetFn : PyObj :=
  { plainObj ["function", "object"] with isCallable := true }

/-- The module name string bound to a dunder key. -/
def modName : PyObj :=
  { plainObj ["str", "object"] with strForm := "main", hasDict := false }

/-- The object with callable attribute greet, dunder class attribute and
data attribute name bound to Bob. -/
def personObj : PyObj :=
  { plainObj ["Person", "object"] with
    classAttrs := [("greet", 2), ("__module__", 3)], instAttrs := [("name", 1)] }

/-- Heap for the greet and name example. -/
def greetHeap : Heap := [personObj, bobStr, greetFn, modName]

/-- A datetime shaped object exposing isoformat. -/
def dtObj : PyObj :=
  { plainObj ["datetime.datetime", "object"] with
    hasIsoformat := true, isoformatResult := "2020-01-01T00:00:00",
    strForm := "2020-01-01 00:00:00", hasDict := false }

/-- Heap for the datetime witness. -/
def dtHeap : Heap := [dtObj]

/-- A non temporal object that still exposes an isoformat attribute and an
attribute namespace. -/
def oddObj : PyObj :=
  { plainObj ["Weird", "object"] with
    hasIsoformat := true, isoformatResult := "odd-iso", strForm := "weird",
    instAttrs := [("a", 0)] }

/-- Heap for the isoformat short circuit witness. -/
def oddHeap : Heap := [oddObj]

/-- A dict update keeps the key of every base entry. -/
theorem updValue_fst (upd : List (String × Ref)) (p : String × Ref) :
    (updValue upd p).1 = p.1 := by
  unfold updValue
  split <;> rfl

/-- Inversion on a kept reflection entry: its key is the candidate key,
its value is the getattr resolution, the key is not a dunder name and the
value is not callable. -/
theorem reflectEntry_eq_some (h : Heap) (o : PyObj) (k : String) (p : String × Ref)
    (he : reflectEntry h o k = Option.some p) :
    p.1 = k ∧ pyGetattr o k = Option.some p.2
    ∧ isDunder k = false ∧ refCallable h p.2 = false := by
  unfold reflectEntry at he
  split at he
  · cases he
  · next r hpg =>
    split at he
    · cases he
    · next hcond =>
      cases he
      have hcond2 : isDunder k = false ∧ refCallable h r = false := by
        simpa using hcond
      exact ⟨rfl, hpg, hcond2.1, hcond2.2⟩

/-- On the isoformat branch the result of default is fully determined by
the pandas null test and the pymongo membership test. -/
theorem encDefault_temporal (h : Heap) (skips : List String) (r : Ref) (o : PyObj)
    (hget : h[r]? = Option.some o)
    (hns : isinstanceOf o skips = false)
    (hnt : isinstanceOf o ["type", "set", "frozenset"] = false)
    (hiso : o.hasIsoformat = true) :
    encDefault h skips r =
      (if o.isNullLike then Except.ok DOut.none
       else if isinstanceOf o mongoTypes then Except.ok (DOut.str o.strForm)
       else Except.ok (DOut.str o.isoformatResult)) := by
  cases hn : o.isNullLike <;> cases hm : isinstanceOf o mongoTypes <;>
    simp [encDefault, hget, hns, hnt, hiso, hn, hm]

/-- Counterexample to claim C6: the class declares f and the instance
rebinds f to a callable; the object reaches the reflection fallback, yet
the produced mapping is empty, so it does not contain the instance value
for f. -/
theorem instance_override_callable_cex :
    encDefault shadowHeap baselineSkipTypes 0 = Except.ok (DOut.dict [])
    ∧ (reflect shadowHeap shadowObj).find? (fun p => p.1 == "f") = Option.none :=
  ⟨rfl, rfl⟩

/-- Claim C6 amended: when the class declares an attribute and the
instance namespace rebinds the same name, the reflection fallback maps
that name to the instance value, provided the name is not a dunder name
and the resolved instance value is not callable; a name failing those
filters is omitted entirely. -/
theorem instance_overrides_class_when_kept (h : Heap) (o : PyObj) (key : String)
    (rc ri : Ref)
    (hc : o.classAttrs.find? (fun p => p.1 == key) = Option.some (key, rc))
    (hi : o.instAttrs.find? (fun p => p.1 == key) = Option.some (key, ri))
    (hd : isDunder key = false)
    (hcall : refCallable h ri = false) :
    (key, ri) ∈ reflect h o ∧ ∀ r0 : Ref, (key, r0) ∈ reflect h o → r0 = ri := by
  have hpg : pyGetattr o key = Option.some ri := by
    unfold pyGetattr
    rw [hi]
  have hentry : reflectEntry h o key = Option.some (key, ri) := by
    simp [reflectEntry, hpg, hd, hcall]
  have hkeymem : key ∈ (dictUpdate o.classAttrs o.instAttrs).map Prod.fst := by
    have hbmem : ((key, rc) : String × Ref) ∈ o.classAttrs :=
      List.mem_of_find?_eq_some hc
    unfold dictUpdate
    rw [List.map_append]
    apply List.mem_append_left
    rw [List.map_map]
    refine List.mem_map.mpr ⟨(key, rc), hbmem, ?_⟩
    simpa [Function.comp] using updValue_fst o.instAttrs (key, rc)
  constructor
  · unfold reflect
    exact List.mem_filterMap.mpr ⟨key, hkeymem, hentry⟩
  · intro r0 h0
    unfold reflect at h0
    rw [List.mem_filterMap] at h0
    obtain ⟨k, hk, he⟩ := h0
    obtain ⟨hp1, hpg2, _, _⟩ := reflectEntry_eq_some h o k (key, r0) he
    have hkk : key = k := hp1
    rw [← hkk] at hpg2
    rw [hpg] at hpg2
    exact (Option.some.injEq ri r0 ▸ hpg2).symm

/-- Witness for the amended C6: the instance value 2 for x wins over the
class value 1. -/
theorem instance_overrides_class_when_kept_witness :
    ("x", (2 : Ref)) ∈ reflect overHeap overObj
    ∧ ∀ r0 : Ref, ("x", r0) ∈ reflect overHeap overObj → r0 = 2 :=
  instance_overrides_class_when_kept overHeap overObj ("x") 1 2 rfl rfl rfl rfl

/-- Claim C7: every entry produced by the reflection fallback has a key
that is not a dunder name and a value that is not callable; the object
with callable attribute greet and data attribute name bound to Bob
reflects to exactly the one entry mapping name to the Bob reference. -/
theorem reflect_excludes_dunder_and_callable :
    (∀ (h : Heap) (o : PyObj) (key : String) (r : Ref),
       (key, r) ∈ reflect h o → isDunder key = false ∧ refCallable h r = false)
    ∧ encDefault greetHeap baselineSkipTypes 0 = Except.ok (DOut.dict [("name", 1)]) := by
  constructor
  · intro h o key r hmem
    unfold reflect at hmem
    rw [List.mem_filterMap] at hmem
    obtain ⟨k, _, he⟩ := hmem
    obtain ⟨hp1, _, hd, hcall⟩ := reflectEntry_eq_some h o k (key, r) he
    have hkk : key = k := hp1
    rw [hkk]
    exact ⟨hd, hcall⟩
  · rfl

/-- Witness for C7 at the name entry of the greet example. -/
theorem reflect_excludes_dunder_and_callable_witness :
    isDunder ("name") = false ∧ refCallable greetHeap 1 = false :=
  reflect_excludes_dunder_and_callable.1 greetHeap personObj ("name") 1 (by decide)

/-- Claim C8: a non suppressed value outside the type and set branch that
exposes isoformat serializes through the temporal branch: null when the
pandas null test holds, its string form when it belongs to the pymongo
family, and its isoformat text otherwise. -/
theorem isoformat_branch_behavior (h : Heap) (skips : List String) (r : Ref)
    (o : PyObj) (hget : h[r]? = Option.some o)
    (hns : isinstanceOf o skips = false)
    (hnt : isinstanceOf o ["type", "set", "frozenset"] = false)
    (hiso : o.hasIsoformat = true) :
    (o.isNullLike = true → encDefault h skips r = Except.ok DOut.none)
    ∧ (o.isNullLike = false → isinstanceOf o mongoTypes = true →
        encDefault h skips r = Except.ok (DOut.str o.strForm))
    ∧ (o.isNullLike = false → isinstanceOf o mongoTypes = false →
        encDefault h skips r = Except.ok (DOut.str o.isoformatResult)) := by
  have ht := encDefault_temporal h skips r o hget hns hnt hiso
  exact ⟨fun hn => by rw [ht]; simp [hn],
         fun hn hm => by rw [ht]; simp [hn, hm],
         fun hn hm => by rw [ht]; simp [hn, hm]⟩

/-- Witness for C8 at a datetime shaped object. -/
theorem isoformat_branch_behavior_witness :
    encDefault dtHeap baselineSkipTypes 0
      = Except.ok (DOut.str ("2020-01-01T00:00:00")) := by
  exact (isoformat_branch_behavior dtHeap baselineSkipTypes 0 dtObj rfl
    (by decide) (by decide) rfl).2.2 rfl (by decide)

/-- Claim C9: construction stores on the new instance the deduplicated
union of the class baseline and the caller extensions, leaves the class
baseline and all previously built instances untouched, and a serialize
call through any instance returns the configuration world unchanged. -/
theorem skip_types_union_immutable (insts : List (List String)) (ext : List String) :
    (encoderInit ⟨baselineSkipTypes, insts⟩ ext).classBaseline = baselineSkipTypes
    ∧ (encoderInit ⟨baselineSkipTypes, insts⟩ ext).instances = insts ++ [mkSkipTypes ext]
    ∧ (mkSkipTypes ext).toFinset = baselineSkipTypes.toFinset ∪ ext.toFinset
    ∧ ∀ (i : Nat) (h : Heap) (r : Ref),
        (serializeCall ⟨baselineSkipTypes, insts⟩ i h r).2 = ⟨baselineSkipTypes, insts⟩ := by
  refine ⟨rfl, rfl, ?_, fun i h r => rfl⟩
  ext a
  simp [mkSkipTypes]

/-- Claim C10: any non suppressed value outside the type and set branch
that exposes an isoformat attribute is handled by the temporal branch
alone: its result is null, its string form, or its isoformat text, and is
never an integer, float, array or mapping result, even when the value
also exposes an attribute namespace. -/
theorem isoformat_attr_short_circuits (h : Heap) (skips : List String) (r : Ref)
    (o : PyObj) (hget : h[r]? = Option.some o)
    (hns : isinstanceOf o skips = false)
    (hnt : isinstanceOf o ["type", "set", "frozenset"] = false)
    (hiso : o.hasIsoformat = true) :
    (encDefault h skips r = Except.ok DOut.none
      ∨ encDefault h skips r = Except.ok (DOut.str o.strForm)
      ∨ encDefault h skips r = Except.ok (DOut.str o.isoformatResult))
    ∧ (∀ m, encDefault h skips r ≠ Except.ok (DOut.dict m))
    ∧ (∀ l, encDefault h skips r ≠ Except.ok (DOut.list l))
    ∧ (∀ n : Int, encDefault h skips r ≠ Except.ok (DOut.int n))
    ∧ (∀ q : Rat, encDefault h skips r ≠ Except.ok (DOut.float q)) := by
  have ht := encDefault_temporal h skips r o hget hns hnt hiso
  rw [ht]
  cases hn : o.isNullLike <;> cases hm : isinstanceOf o mongoTypes <;> simp [hn, hm]

/-- Witness for C10 at a non temporal object exposing both isoformat and
an attribute namespace. -/
theorem isoformat_attr_short_circuits_witness :
    (encDefault oddHeap baselineSkipTypes 0 = Except.ok DOut.none
      ∨ encDefault oddHeap baselineSkipTypes 0 = Except.ok (DOut.str ("weird"))
      ∨ encDefault oddHeap baselineSkipTypes 0 = Except.ok (DOut.str ("odd-iso")))
    ∧ (∀ m, encDefault oddHeap baselineSkipTypes 0 ≠ Except.ok (DOut.dict m))
    ∧ (∀ l, encDefault oddHeap baselineSkipTypes 0 ≠ Except.ok (DOut.list l))
    ∧ (∀ n : Int, encDefault oddHeap baselineSkipTypes 0 ≠ Except.ok (DOut.int n))
    ∧ (∀ q : Rat, encDefault oddHeap baselineSkipTypes 0 ≠ Except.ok (DOut.float q)) := by
  exact isoformat_attr_short_circuits oddHeap baselineSkipTypes 0 oddObj rfl
    (by decide) (by decide) rfl

end ObjEnc
